import Mathlib

/-!
Verification of the `mslearn-genaiops` trail-guide agent scripts.

Shallow embedding of the two Python entry points:
  * `src/agents/trail_guide_agent/trail_guide_agent.py` (the provisioner)
  * `src/tests/interact_with_agent.py` (the interactive chat client)

The process environment is modelled as a partial map `String → Option String`;
Python truthiness of `os.getenv` results (absent or empty string is falsy) is
made explicit.  The REPL loop of the chat client is modelled as a step
function over the transcript that also records the chat-completion calls
made, the lines printed, and the termination outcome of the iteration.
-/

namespace TrailGuide

/-! ### Python string primitives -/

/-- The whitespace characters stripped by Python `str.strip()` (ASCII set). -/
def isWS (c : Char) : Bool :=
  c == ' ' || c == '\t' || c == '\n' || c == '\r' ||
    c == Char.ofNat 11 || c == Char.ofNat 12

/-- `str.strip()` on a character list: drop leading and trailing whitespace. -/
def stripList (l : List Char) : List Char :=
  (((l.dropWhile isWS).reverse.dropWhile isWS).reverse)

/-- Python `str.strip()`. -/
def pyStrip (s : String) : String := ⟨stripList s.data⟩

/-- Python `str.lower()` (ASCII model). -/
def pyLower (s : String) : String := ⟨s.data.map Char.toLower⟩

/-- Does `l` start with `p`? -/
def startsWithList : List Char → List Char → Bool
  | _, [] => true
  | [], _ :: _ => false
  | a :: as, b :: bs => a == b && startsWithList as bs

/-- Does `l` contain `sub` as a contiguous run? -/
def hasSubList (sub : List Char) : List Char → Bool
  | [] => startsWithList [] sub
  | a :: t => startsWithList (a :: t) sub || hasSubList sub t

/-- Python `sub in s` substring test. -/
def hasSubstr (s sub : String) : Bool := hasSubList sub.data s.data

/-! ### Environment model -/

/-- A process environment: maps a variable name to its value when set. -/
def Env : Type := String → Option String

/-- `os.getenv name` filtered through Python truthiness: an absent variable
and an empty-string variable are both falsy, anything else is its value. -/
def truthy (env : Env) (name : String) : Option String :=
  match env name with
  | some s => if s = "" then none else some s
  | none => none

/-- A concrete environment with all three override variables set. -/
def envAll : Env := fun n =>
  if n = "MODEL_DEPLOYMENT" then some "depA"
  else if n = "AZURE_OPENAI_DEPLOYMENT" then some "depB"
  else if n = "MODEL_NAME" then some "depC"
  else none

/-- A concrete environment with no override variables set. -/
def envNone : Env := fun _ => none

/-! ### Chat client: effective model resolution
(`interact_with_agent.py`, lines 60–65) -/

/-- The chat client's effective model name:
`os.getenv("MODEL_DEPLOYMENT") or os.getenv("AZURE_OPENAI_DEPLOYMENT")
or os.getenv("MODEL_NAME") or definition.model`. -/
def model_name_resolve (env : Env) (definition_model : String) : String :=
  match truthy env "MODEL_DEPLOYMENT" with
  | some v => v
  | none =>
    match truthy env "AZURE_OPENAI_DEPLOYMENT" with
    | some v => v
    | none =>
      match truthy env "MODEL_NAME" with
      | some v => v
      | none => definition_model

/-- Claim C1: the effective model name follows the strict precedence
MODEL_DEPLOYMENT > AZURE_OPENAI_DEPLOYMENT > MODEL_NAME > the agent
definition's stored model field; with all three overrides unset the
resolved model is the definition's model field. -/
theorem C1_model_precedence (env : Env) (D : String) :
    (∀ v, truthy env "MODEL_DEPLOYMENT" = some v →
      model_name_resolve env D = v) ∧
    (truthy env "MODEL_DEPLOYMENT" = none →
      ∀ v, truthy env "AZURE_OPENAI_DEPLOYMENT" = some v →
        model_name_resolve env D = v) ∧
    (truthy env "MODEL_DEPLOYMENT" = none →
      truthy env "AZURE_OPENAI_DEPLOYMENT" = none →
      ∀ v, truthy env "MODEL_NAME" = some v →
        model_name_resolve env D = v) ∧
    (truthy env "MODEL_DEPLOYMENT" = none →
      truthy env "AZURE_OPENAI_DEPLOYMENT" = none →
      truthy env "MODEL_NAME" = none →
      model_name_resolve env D = D) := by
  refine ⟨?_, ?_, ?_, ?_⟩
  · intro v h
    simp [model_name_resolve, h]
  · intro h1 v h2
    simp [model_name_resolve, h1, h2]
  · intro h1 h2 v h3
    simp [model_name_resolve, h1, h2, h3]
  · intro h1 h2 h3
    simp [model_name_resolve, h1, h2, h3]

/-! ### Configuration loader (`load_env_with_fallbacks`, both scripts) -/

/-- Outcome of one `load_dotenv` attempt under a given encoding: either it
succeeds, or it raises a `UnicodeDecodeError`. -/
inductive LoadResult where
  | ok
  | decodeError
deriving DecidableEq

/-- The fixed encoding fallback list:
`[None, "utf-8-sig", "utf-16", "utf-16-le", "utf-16-be"]`. -/
def encodings : List (Option String) :=
  [none, some "utf-8-sig", some "utf-16", some "utf-16-le", some "utf-16-be"]

/-- The loop body of `load_env_with_fallbacks`: try each encoding in order,
returning the first one whose `load_dotenv` attempt succeeds. -/
def tryLoad (attempt : Option String → LoadResult) :
    List (Option String) → Option (Option String)
  | [] => none
  | e :: rest =>
    match attempt e with
    | .ok => some e
    | .decodeError => tryLoad attempt rest

/-- The final error message of `load_env_with_fallbacks`. -/
def loadFailMsg (env_path : String) : String :=
  "Unable to read .env file at " ++ env_path ++ ". Please save it as UTF-8."

/-- `load_env_with_fallbacks(env_path)`: return (the encoding that
succeeded) on first success, else raise a `RuntimeError` naming the path. -/
def load_env_with_fallbacks (attempt : Option String → LoadResult)
    (env_path : String) : Except String (Option String) :=
  match tryLoad attempt encodings with
  | some e => .ok e
  | none => .error (loadFailMsg env_path)

/-! ### Required-variable validation (`missing_vars` blocks) -/

/-- Required variables of the chat client (`interact_with_agent.py` line 36). -/
def required_vars_chat : List String :=
  ["AZURE_AI_PROJECT_ENDPOINT", "AZURE_OPENAI_ENDPOINT", "AGENT_NAME"]

/-- Required variables of the provisioner (`trail_guide_agent.py` line 30). -/
def required_vars_provisioner : List String :=
  ["AZURE_AI_PROJECT_ENDPOINT", "AGENT_NAME"]

/-- `[name for name in required_vars if not os.getenv(name)]`. -/
def missing_vars (env : Env) (req : List String) : List String :=
  req.filter (fun n => (truthy env n).isNone)

/-- The `RuntimeError` message raised when required variables are missing. -/
def missingMsg (m : List String) (env_file : String) : String :=
  "Missing required environment variable(s): " ++ String.intercalate ", " m ++
    ". Expected .env at: " ++ env_file

/-- The validation block common to both scripts: raise if any required
variable is unset or empty. -/
def validate_required (env : Env) (req : List String) (env_file : String) :
    Except String Unit :=
  if missing_vars env req = [] then .ok ()
  else .error (missingMsg (missing_vars env req) env_file)

/-! ### Entry-point startup sequencing -/

/-- Trace of an entry point's module-level startup: how many remote calls
were made, and the result (a config error message, or success). -/
structure EntryTrace where
  remote_calls : Nat
  result : Except String Unit

/-- The module-level startup shared by both entry points: load the dotenv
file, validate the required variables, and only then enter the remote phase
(which performs `remote_calls_after` remote calls). -/
def run_entry (attempt : Option String → LoadResult) (env : Env)
    (req : List String) (env_file : String) (remote_calls_after : Nat) :
    EntryTrace :=
  match load_env_with_fallbacks attempt env_file with
  | .error msg => ⟨0, .error msg⟩
  | .ok _ =>
    match validate_required env req env_file with
    | .error msg => ⟨0, .error msg⟩
    | .ok _ => ⟨remote_calls_after, .ok ()⟩

/-! ### Substring helper lemmas -/

theorem startsWithList_append (p suf : List Char) :
    startsWithList (p ++ suf) p = true := by
  induction p with
  | nil => cases suf <;> rfl
  | cons a t ih => simp [startsWithList, ih]

theorem hasSubList_append (pre sub suf : List Char) :
    hasSubList sub (pre ++ (sub ++ suf)) = true := by
  induction pre with
  | nil =>
    cases h : sub ++ suf with
    | nil =>
      have hs : sub = [] := by
        cases sub with
        | nil => rfl
        | cons a t => simp at h
      simp [hs, hasSubList, startsWithList]
    | cons a t =>
      simp only [List.nil_append, h, hasSubList]
      rw [← h, startsWithList_append]
      simp
  | cons a t ih =>
    simp only [List.cons_append, hasSubList, List.append_eq]
    rw [ih]
    simp

/-- A string built around `sub` contains `sub` as a substring. -/
theorem hasSubstr_of_parts (pre sub suf : String) :
    hasSubstr (pre ++ sub ++ suf) sub = true := by
  have h : (pre ++ sub ++ suf).data = pre.data ++ (sub.data ++ suf.data) := by
    simp [String.data_append, List.append_assoc]
  rw [hasSubstr, h]
  exact hasSubList_append pre.data sub.data suf.data

/-- A string ending in `sub` contains `sub` as a substring. -/
theorem hasSubstr_append_right (pre sub : String) :
    hasSubstr (pre ++ sub) sub = true := by
  have h : (pre ++ sub).data = pre.data ++ (sub.data ++ []) := by
    simp [String.data_append]
  rw [hasSubstr, h]
  exact hasSubList_append pre.data sub.data []

/-! ### Loader lemmas -/

theorem tryLoad_none_iff (attempt : Option String → LoadResult)
    (l : List (Option String)) :
    tryLoad attempt l = none ↔ ∀ e ∈ l, attempt e = .decodeError := by
  induction l with
  | nil => simp [tryLoad]
  | cons a t ih =>
    cases h : attempt a with
    | ok => simp [tryLoad, h]
    | decodeError => simp [tryLoad, h, ih]

theorem tryLoad_first (attempt : Option String → LoadResult)
    (l₁ : List (Option String)) (e : Option String) (l₂ : List (Option String))
    (h1 : ∀ x ∈ l₁, attempt x = .decodeError) (h2 : attempt e = .ok) :
    tryLoad attempt (l₁ ++ e :: l₂) = some e := by
  induction l₁ with
  | nil => simp [tryLoad, h2]
  | cons a t ih =>
    have ha : attempt a = .decodeError := h1 a (by simp)
    simp only [List.cons_append, tryLoad, ha]
    exact ih (fun x hx => h1 x (by simp [hx]))

theorem load_error_msg (attempt : Option String → LoadResult)
    (path m : String) (h : load_env_with_fallbacks attempt path = .error m) :
    m = loadFailMsg path := by
  unfold load_env_with_fallbacks at h
  cases htl : tryLoad attempt encodings <;> simp [htl] at h
  exact h.symm

/-- Claim C3: the loader tries the encodings in the fixed order
`[default, utf-8-sig, utf-16, utf-16-le, utf-16-be]` and returns on the
first attempt that does not raise a decode error; it fails if and only if
every attempt raises a decode error, with a single error naming the
offending path and instructing the user to save the file as UTF-8. -/
theorem C3_encoding_fallback (attempt : Option String → LoadResult)
    (path : String) :
    ((∀ e ∈ encodings, attempt e = LoadResult.decodeError) ↔
      load_env_with_fallbacks attempt path = .error (loadFailMsg path)) ∧
    (∀ l₁ e l₂, encodings = l₁ ++ e :: l₂ →
      (∀ x ∈ l₁, attempt x = LoadResult.decodeError) →
      attempt e = LoadResult.ok →
      load_env_with_fallbacks attempt path = .ok e) ∧
    hasSubstr (loadFailMsg path) path = true := by
  refine ⟨⟨fun h => ?_, fun h => ?_⟩, fun l₁ e l₂ heq h1 h2 => ?_, ?_⟩
  · have hn : tryLoad attempt encodings = none := (tryLoad_none_iff _ _).mpr h
    simp [load_env_with_fallbacks, hn]
  · rw [← tryLoad_none_iff]
    cases hh : tryLoad attempt encodings with
    | none => rfl
    | some e => simp [load_env_with_fallbacks, hh] at h
  · have hfst := tryLoad_first attempt l₁ e l₂ h1 h2
    rw [← heq] at hfst
    simp [load_env_with_fallbacks, hfst]
  · have h := hasSubstr_of_parts "Unable to read .env file at " path
      ". Please save it as UTF-8."
    simpa [loadFailMsg] using h

/-- An attempt for which every encoding raises a decode error. -/
def attemptAllFail : Option String → LoadResult := fun _ => .decodeError

/-- An attempt for which only the `utf-16` encoding succeeds. -/
def attemptUTF16 : Option String → LoadResult := fun e =>
  if e = some "utf-16" then .ok else .decodeError

/-- Claim C3 witness: a file undecodable under every encoding yields the
descriptive error; a file decodable only as utf-16 loads with utf-16. -/
theorem C3_encoding_fallback_witness :
    load_env_with_fallbacks attemptAllFail "/repo/.env" =
      .error (loadFailMsg "/repo/.env") ∧
    load_env_with_fallbacks attemptUTF16 "/repo/.env" = .ok (some "utf-16") := by
  constructor
  · exact (C3_encoding_fallback attemptAllFail "/repo/.env").1.mp
      (fun e _ => rfl)
  · exact (C3_encoding_fallback attemptUTF16 "/repo/.env").2.1
      [none, some "utf-8-sig"] (some "utf-16")
      [some "utf-16-le", some "utf-16-be"] rfl
      (by intro x hx; fin_cases hx <;> rfl) rfl

/-- Claim C4: for each entry point's required-variable list, if some
required variable is absent or empty, validation fails with a message built
from exactly the missing names and the expected configuration file path;
the missing list contains a name iff it is required and unset-or-empty. -/
theorem C4_required_validation (env : Env) (env_file : String) :
    (∀ req, req = required_vars_provisioner ∨ req = required_vars_chat →
      (missing_vars env req ≠ [] →
        validate_required env req env_file =
          .error (missingMsg (missing_vars env req) env_file)) ∧
      (∀ n, n ∈ missing_vars env req ↔ n ∈ req ∧ truthy env n = none) ∧
      (missing_vars env req = [] →
        validate_required env req env_file = .ok ())) ∧
    hasSubstr (missingMsg (missing_vars env required_vars_chat) env_file)
      env_file = true ∧
    hasSubstr (missingMsg (missing_vars env required_vars_provisioner) env_file)
      env_file = true := by
  refine ⟨fun req _ => ⟨fun hne => ?_, fun n => ?_, fun he => ?_⟩, ?_, ?_⟩
  · simp [validate_required, hne]
  · simp [missing_vars, List.mem_filter, Option.isNone_iff_eq_none]
  · simp [validate_required, he]
  · have h := hasSubstr_append_right
      ("Missing required environment variable(s): " ++
        String.intercalate ", " (missing_vars env required_vars_chat) ++
        ". Expected .env at: ") env_file
    simpa [missingMsg, String.append_assoc] using h
  · have h := hasSubstr_append_right
      ("Missing required environment variable(s): " ++
        String.intercalate ", " (missing_vars env required_vars_provisioner) ++
        ". Expected .env at: ") env_file
    simpa [missingMsg, String.append_assoc] using h

/-- An environment where only the project endpoint is set. -/
def envOnlyProject : Env := fun n =>
  if n = "AZURE_AI_PROJECT_ENDPOINT" then some "https://proj" else none

/-- Claim C4 witness: with only the project endpoint set, the chat client's
validation fails naming AZURE_OPENAI_ENDPOINT and AGENT_NAME, and AGENT_NAME
is in the missing list while AZURE_AI_PROJECT_ENDPOINT is not. -/
theorem C4_required_validation_witness :
    validate_required envOnlyProject required_vars_chat "/repo/.env" =
      .error (missingMsg ["AZURE_OPENAI_ENDPOINT", "AGENT_NAME"] "/repo/.env") ∧
    ("AGENT_NAME" ∈ missing_vars envOnlyProject required_vars_chat ∧
      "AZURE_AI_PROJECT_ENDPOINT" ∉ missing_vars envOnlyProject required_vars_chat) := by
  have hm : missing_vars envOnlyProject required_vars_chat =
      ["AZURE_OPENAI_ENDPOINT", "AGENT_NAME"] := by
    simp [missing_vars, required_vars_chat, envOnlyProject, truthy]
  constructor
  · have h := ((C4_required_validation envOnlyProject "/repo/.env").1
      required_vars_chat (Or.inr rfl)).1 (by rw [hm]; simp)
    rwa [hm] at h
  · constructor
    · exact ((((C4_required_validation envOnlyProject "/repo/.env").1
        required_vars_chat (Or.inr rfl)).2.1) "AGENT_NAME").mpr
        ⟨by simp [required_vars_chat], by simp [truthy, envOnlyProject]⟩
    · intro hmem
      have h := ((((C4_required_validation envOnlyProject "/repo/.env").1
        required_vars_chat (Or.inr rfl)).2.1) "AZURE_AI_PROJECT_ENDPOINT").mp hmem
      simp [truthy, envOnlyProject] at h

/-- Claim C8: every configuration error — an undecodable configuration file
or missing required variables — is fatal before any remote call: the entry
point makes zero remote calls and reports either the loader's path-naming
error or the enumerated missing variable names. -/
theorem C8_config_errors_fatal (attempt : Option String → LoadResult)
    (env : Env) (req : List String) (env_file : String) (rc : Nat)
    (h : (∀ e ∈ encodings, attempt e = LoadResult.decodeError) ∨
      missing_vars env req ≠ []) :
    (run_entry attempt env req env_file rc).remote_calls = 0 ∧
    ((run_entry attempt env req env_file rc).result =
        .error (loadFailMsg env_file) ∨
      (run_entry attempt env req env_file rc).result =
        .error (missingMsg (missing_vars env req) env_file)) := by
  rcases h with hall | hmiss
  · have hn : tryLoad attempt encodings = none := (tryLoad_none_iff _ _).mpr hall
    simp [run_entry, load_env_with_fallbacks, hn]
  · cases hl : load_env_with_fallbacks attempt env_file with
    | error m =>
      have hm := load_error_msg attempt env_file m hl
      subst hm
      simp [run_entry, hl]
    | ok e =>
      simp [run_entry, hl, validate_required, hmiss]

/-- Claim C8 witness: an undecodable file aborts the provisioner with zero
remote calls, and a decodable file with no variables set aborts the chat
client with zero remote calls. -/
theorem C8_config_errors_fatal_witness :
    ((run_entry attemptAllFail envNone required_vars_provisioner "/repo/.env" 5).remote_calls = 0 ∧
      ((run_entry attemptAllFail envNone required_vars_provisioner "/repo/.env" 5).result =
          .error (loadFailMsg "/repo/.env") ∨
        (run_entry attemptAllFail envNone required_vars_provisioner "/repo/.env" 5).result =
          .error (missingMsg (missing_vars envNone required_vars_provisioner) "/repo/.env"))) ∧
    ((run_entry attemptUTF16 envNone required_vars_chat "/repo/.env" 3).remote_calls = 0 ∧
      ((run_entry attemptUTF16 envNone required_vars_chat "/repo/.env" 3).result =
          .error (loadFailMsg "/repo/.env") ∨
        (run_entry attemptUTF16 envNone required_vars_chat "/repo/.env" 3).result =
          .error (missingMsg (missing_vars envNone required_vars_chat) "/repo/.env"))) := by
  constructor
  · exact C8_config_errors_fatal attemptAllFail envNone required_vars_provisioner
      "/repo/.env" 5 (Or.inl (fun e _ => rfl))
  · exact C8_config_errors_fatal attemptUTF16 envNone required_vars_chat
      "/repo/.env" 3 (Or.inr (by simp [missing_vars, required_vars_chat, envNone, truthy]))

/-- Claim C1 witness: with all overrides set the first wins, and with none
set the definition's model is used. -/
theorem C1_model_precedence_witness :
    model_name_resolve envAll "gpt-4o" = "depA" ∧
    model_name_resolve envNone "gpt-4o" = "gpt-4o" := by
  constructor
  · exact (C1_model_precedence envAll "gpt-4o").1 "depA" rfl
  · exact (C1_model_precedence envNone "gpt-4o").2.2.2 rfl rfl rfl

/-! ### Chat client: REPL loop (`interact_with_agent.py`, lines 89–129) -/

/-- A transcript message: `{"role": ..., "content": ...}`. -/
structure Msg where
  role : String
  content : String
deriving DecidableEq

/-- Outcome of a `chat.completions.create` call: a reply whose message
content may be absent (`None`), or a raised exception with its text. -/
inductive ChatResult where
  | reply (content : Option String)
  | raised (text : String)

/-- How a loop iteration leaves the session: continue looping, or stop the
process with the given exit code. -/
inductive Outcome where
  | next
  | stop (exitCode : Nat)
deriving DecidableEq

/-- Observable effect of one loop iteration: the transcript afterwards, the
argument lists of the chat-completion calls made, the lines printed, and the
termination outcome. -/
structure StepResult where
  messages : List Msg
  calls : List (List Msg)
  printed : List String
  outcome : Outcome
deriving DecidableEq

/-- One turn's input: a line of terminal input, or a KeyboardInterrupt. -/
inductive TurnInput where
  | line (s : String)
  | interrupt

/-- The exit keywords checked at line 97: `['exit', 'quit', 'q']`. -/
def exit_words : List String := ["exit", "quit", "q"]

/-- The remediation lines printed when the model deployment is not found
(lines 117–124). -/
def remediation_lines (m : String) : List String :=
  ["\nError: Model deployment not found.",
   "Requested model/deployment: " ++ m,
   "Target endpoint: AZURE_OPENAI_ENDPOINT",
   "\nFix:",
   "1) Deploy a chat model in your AI Services account.",
   "2) Set MODEL_DEPLOYMENT in .env to that deployment name.",
   "3) Re-run this test script."]

/-- The `except Exception` handler body (lines 114–126): substring match on
the error text selects either the remediation block or the raw error. -/
def handle_error (m error_text : String) : List String :=
  if hasSubstr error_text "DeploymentNotFound" ||
      hasSubstr error_text "Error code: 404" then
    remediation_lines m
  else
    ["\nError: " ++ error_text]

/-- One iteration of the chat loop, including the KeyboardInterrupt and
generic exception handlers surrounding it. -/
def step (m : String) (chat : List Msg → ChatResult) (msgs : List Msg) :
    TurnInput → StepResult
  | .interrupt => ⟨msgs, [], ["\n\nSession interrupted. Goodbye!"], .stop 0⟩
  | .line raw =>
    let user_input := pyStrip raw
    if user_input = "" then ⟨msgs, [], [], .next⟩
    else if pyLower user_input ∈ exit_words then
      ⟨msgs, [], ["\nEnding session. Goodbye!"], .stop 0⟩
    else
      let msgs1 := msgs ++ [⟨"user", user_input⟩]
      match chat msgs1 with
      | .reply c =>
        let assistant_reply := c.getD ""
        ⟨msgs1 ++ [⟨"assistant", assistant_reply⟩], [msgs1],
          ["\nAgent: " ++ assistant_reply ++ "\n"], .next⟩
      | .raised t => ⟨msgs1, [msgs1], handle_error m t, .stop 1⟩

/-! ### Whitespace / lowering lemmas for the exit keywords -/

theorem toLower_of_ws (c : Char) (h : isWS c = true) : Char.toLower c = c := by
  simp only [isWS, Bool.or_eq_true, beq_iff_eq] at h
  rcases h with ((((h|h)|h)|h)|h)|h <;> subst h <;> decide

theorem not_ws_of_toLower_exit (w : String) (hw : w ∈ exit_words) (c : Char)
    (hc : Char.toLower c ∈ w.data) : isWS c = false := by
  cases ht : isWS c with
  | false => rfl
  | true =>
    exfalso
    rw [toLower_of_ws c ht] at hc
    simp only [isWS, Bool.or_eq_true, beq_iff_eq] at ht
    simp only [exit_words, List.mem_cons, List.mem_singleton,
      List.not_mem_nil, or_false] at hw
    rcases hw with h|h|h <;> subst h <;>
      rcases ht with ((((h'|h')|h')|h')|h')|h' <;> subst h' <;>
        exact absurd hc (by decide)

theorem dropWhile_ws_eq_self (l : List Char) (h : ∀ c ∈ l, isWS c = false) :
    l.dropWhile isWS = l := by
  cases l with
  | nil => rfl
  | cons a t => simp [List.dropWhile_cons, h a (by simp)]

theorem stripList_eq_self (l : List Char) (h : ∀ c ∈ l, isWS c = false) :
    stripList l = l := by
  have h1 : l.dropWhile isWS = l := dropWhile_ws_eq_self l h
  have h2 : l.reverse.dropWhile isWS = l.reverse :=
    dropWhile_ws_eq_self l.reverse (fun c hc => h c (by simpa using hc))
  rw [stripList, h1, h2, List.reverse_reverse]

theorem pyStrip_eq_self_of_lower_exit (s : String) (h : pyLower s ∈ exit_words) :
    pyStrip s = s := by
  have hall : ∀ c ∈ s.data, isWS c = false := by
    intro c hc
    have hmem : Char.toLower c ∈ (pyLower s).data :=
      List.mem_map_of_mem Char.toLower hc
    exact not_ws_of_toLower_exit (pyLower s) h c hmem
  show (⟨stripList s.data⟩ : String) = s
  rw [stripList_eq_self s.data hall]

theorem ne_empty_of_lower_exit (s : String) (h : pyLower s ∈ exit_words) :
    s ≠ "" := by
  intro he
  subst he
  revert h
  decide

/-- The exit-keyword branch of the loop: for an input whose lowercase form
is one of the exit words, the iteration prints the farewell, appends
nothing, makes no call, and stops with exit code 0. -/
theorem step_exit_of_lower_mem (m : String) (chat : List Msg → ChatResult)
    (msgs : List Msg) (s : String) (h : pyLower s ∈ exit_words) :
    step m chat msgs (.line s) =
      ⟨msgs, [], ["\nEnding session. Goodbye!"], .stop 0⟩ := by
  have hstrip : pyStrip s = s := pyStrip_eq_self_of_lower_exit s h
  have hne : s ≠ "" := ne_empty_of_lower_exit s h
  simp [step, hstrip, hne, h]

/-! ### Claims about the loop -/

/-- Claim C5: a normal (non-empty, non-exit) input line appends exactly two
transcript entries, first a user message then an assistant message, and
makes exactly one chat-completion call whose context is the full transcript
including the new user message; an absent reply content is recorded as the
empty string. -/
theorem C5_normal_turn (m : String) (c : Option String) (msgs : List Msg)
    (raw : String) (chat : List Msg → ChatResult)
    (h1 : pyStrip raw ≠ "")
    (h2 : pyLower (pyStrip raw) ∉ exit_words)
    (hchat : ∀ l, chat l = .reply c) :
    (step m chat msgs (.line raw)).messages =
      msgs ++ [⟨"user", pyStrip raw⟩, ⟨"assistant", c.getD ""⟩] ∧
    (step m chat msgs (.line raw)).calls =
      [msgs ++ [⟨"user", pyStrip raw⟩]] ∧
    (step m chat msgs (.line raw)).outcome = .next ∧
    (c = none →
      (step m chat msgs (.line raw)).messages =
        msgs ++ [⟨"user", pyStrip raw⟩, ⟨"assistant", ""⟩]) := by
  refine ⟨?_, ?_, ?_, fun hc => ?_⟩
  · simp [step, h1, h2, hchat]
  · simp [step, h1, h2, hchat]
  · simp [step, h1, h2, hchat]
  · simp [step, h1, h2, hchat, hc]

/-- Claim C5 witness: a concrete turn with reply "hi" appends the user and
assistant entries and calls once; a reply with absent content appends an
empty-string assistant entry. -/
theorem C5_normal_turn_witness :
    (step "gpt-4.1" (fun _ => .reply (some "hi")) [] (.line "hello")).messages =
      [⟨"user", "hello"⟩, ⟨"assistant", "hi"⟩] ∧
    (step "gpt-4.1" (fun _ => .reply (some "hi")) [] (.line "hello")).calls =
      [[⟨"user", "hello"⟩]] ∧
    (step "gpt-4.1" (fun _ => .reply none) [] (.line "hello")).messages =
      [⟨"user", "hello"⟩, ⟨"assistant", ""⟩] := by
  refine ⟨?_, ?_, ?_⟩
  · have h := (C5_normal_turn "gpt-4.1" (some "hi") [] "hello"
      (fun _ => .reply (some "hi")) (by decide) (by decide) (fun _ => rfl)).1
    simpa using h
  · have h := (C5_normal_turn "gpt-4.1" (some "hi") [] "hello"
      (fun _ => .reply (some "hi")) (by decide) (by decide) (fun _ => rfl)).2.1
    simpa using h
  · have h := (C5_normal_turn "gpt-4.1" none [] "hello"
      (fun _ => .reply none) (by decide) (by decide) (fun _ => rfl)).2.2.2 rfl
    simpa using h

/-- Claim C6: any input line matching "exit", "quit", or "q"
case-insensitively prints the farewell and terminates the loop with no new
transcript entries and no chat-completion call. -/
theorem C6_exit_terminates (m : String) (chat : List Msg → ChatResult)
    (msgs : List Msg) (s : String) (h : pyLower s ∈ exit_words) :
    step m chat msgs (.line s) =
      ⟨msgs, [], ["\nEnding session. Goodbye!"], .stop 0⟩ :=
  step_exit_of_lower_mem m chat msgs s h

/-- Claim C6 witness: the inputs "exit", "QUIT", and "q" each terminate the
loop gracefully with the transcript untouched. -/
theorem C6_exit_terminates_witness :
    step "gpt-4.1" (fun _ => .reply (some "hi")) [⟨"system", "be nice"⟩]
      (.line "QUIT") =
      ⟨[⟨"system", "be nice"⟩], [], ["\nEnding session. Goodbye!"], .stop 0⟩ ∧
    step "gpt-4.1" (fun _ => .reply (some "hi")) [] (.line "q") =
      ⟨[], [], ["\nEnding session. Goodbye!"], .stop 0⟩ := by
  constructor
  · exact C6_exit_terminates "gpt-4.1" (fun _ => .reply (some "hi"))
      [⟨"system", "be nice"⟩] "QUIT" (by decide)
  · exact C6_exit_terminates "gpt-4.1" (fun _ => .reply (some "hi"))
      [] "q" (by decide)

/-- Claim C7: a KeyboardInterrupt during the loop is a graceful
termination: it prints only a farewell (no error line), makes no call,
leaves the transcript unchanged, and the process exit code is 0 — the same
exit code as the exit-keyword path. -/
theorem C7_interrupt_graceful (m : String) (chat : List Msg → ChatResult)
    (msgs : List Msg) :
    (step m chat msgs .interrupt).messages = msgs ∧
    (step m chat msgs .interrupt).calls = [] ∧
    (step m chat msgs .interrupt).printed =
      ["\n\nSession interrupted. Goodbye!"] ∧
    (step m chat msgs .interrupt).outcome = .stop 0 ∧
    (step m chat msgs .interrupt).outcome =
      (step m chat msgs (.line "exit")).outcome := by
  have hexit := step_exit_of_lower_mem m chat msgs "exit" (by decide)
  refine ⟨rfl, rfl, rfl, rfl, ?_⟩
  rw [hexit]
  rfl

/-- Claim C10: an input line that is empty after stripping is a no-op: the
transcript is unchanged, no chat-completion call is made, nothing is
printed, and the loop continues to the next prompt. -/
theorem C10_empty_input_noop (m : String) (chat : List Msg → ChatResult)
    (msgs : List Msg) (raw : String) (h : pyStrip raw = "") :
    step m chat msgs (.line raw) = ⟨msgs, [], [], .next⟩ := by
  simp [step, h]

/-- Claim C10 witness: a whitespace-only line leaves a concrete session
state untouched. -/
theorem C10_empty_input_noop_witness :
    step "gpt-4.1" (fun _ => .reply (some "hi")) [⟨"system", "be nice"⟩]
      (.line "   ") =
      ⟨[⟨"system", "be nice"⟩], [], [], .next⟩ :=
  C10_empty_input_noop "gpt-4.1" (fun _ => .reply (some "hi"))
    [⟨"system", "be nice"⟩] "   " (by decide)

/-- Claim C2: when a turn's chat-completion call raises an exception, the
process exits with status 1; if the exception text contains
"DeploymentNotFound" or "Error code: 404" the printed lines are the
remediation block naming the resolved model and instructing the operator to
set MODEL_DEPLOYMENT, otherwise the raw exception text is printed. -/
theorem C2_error_exit (m t : String) (msgs : List Msg) (raw : String)
    (chat : List Msg → ChatResult)
    (h1 : pyStrip raw ≠ "")
    (h2 : pyLower (pyStrip raw) ∉ exit_words)
    (hchat : ∀ l, chat l = .raised t) :
    (step m chat msgs (.line raw)).outcome = .stop 1 ∧
    (step m chat msgs (.line raw)).printed = handle_error m t ∧
    ((hasSubstr t "DeploymentNotFound" || hasSubstr t "Error code: 404") = true →
      handle_error m t = remediation_lines m ∧
      ("Requested model/deployment: " ++ m) ∈ handle_error m t ∧
      "2) Set MODEL_DEPLOYMENT in .env to that deployment name." ∈
        handle_error m t) ∧
    ((hasSubstr t "DeploymentNotFound" || hasSubstr t "Error code: 404") = false →
      handle_error m t = ["\nError: " ++ t]) := by
  refine ⟨?_, ?_, fun hmatch => ?_, fun hnomatch => ?_⟩
  · simp [step, h1, h2, hchat]
  · simp [step, h1, h2, hchat]
  · refine ⟨?_, ?_, ?_⟩ <;> simp [handle_error, hmatch, remediation_lines]
  · simp [handle_error, hnomatch]

/-- Claim C2 witness: a 404 error text yields the remediation block naming
the resolved model and exit status 1; an unrelated error text is printed
raw, also with exit status 1. -/
theorem C2_error_exit_witness :
    (step "gpt-4.1" (fun _ => .raised "Error code: 404 - deployment missing")
      [] (.line "hi")).outcome = .stop 1 ∧
    ("Requested model/deployment: " ++ "gpt-4.1") ∈
      handle_error "gpt-4.1" "Error code: 404 - deployment missing" ∧
    (step "gpt-4.1" (fun _ => .raised "rate limited") [] (.line "hi")).outcome =
      .stop 1 ∧
    handle_error "gpt-4.1" "rate limited" = ["\nError: " ++ "rate limited"] := by
  refine ⟨?_, ?_, ?_, ?_⟩
  · exact (C2_error_exit "gpt-4.1" "Error code: 404 - deployment missing" []
      "hi" (fun _ => .raised "Error code: 404 - deployment missing")
      (by decide) (by decide) (fun _ => rfl)).1
  · exact ((C2_error_exit "gpt-4.1" "Error code: 404 - deployment missing" []
      "hi" (fun _ => .raised "Error code: 404 - deployment missing")
      (by decide) (by decide) (fun _ => rfl)).2.2.1 (by decide)).2.1
  · exact (C2_error_exit "gpt-4.1" "rate limited" [] "hi"
      (fun _ => .raised "rate limited")
      (by decide) (by decide) (fun _ => rfl)).1
  · exact (C2_error_exit "gpt-4.1" "rate limited" [] "hi"
      (fun _ => .raised "rate limited")
      (by decide) (by decide) (fun _ => rfl)).2.2.2 (by decide)

/-! ### Provisioner (`trail_guide_agent.py`, lines 38–55) -/

/-- The definition payload of the `create_version` remote call. -/
structure CreateVersionCall where
  agent_name : String
  model : String
  instructions : String
deriving DecidableEq

/-- `os.getenv(name, dflt)`: the default applies only when `name` is absent
from the environment, not when it is set to the empty string. -/
def getenv_default (env : Env) (name dflt : String) : String :=
  (env name).getD dflt

/-- The provisioner's single `create_version` call: agent name from the
environment, model from MODEL_NAME with fallback "gpt-4.1", instructions
the stripped content of the prompt file. -/
def provision_call (env : Env) (file_content : String) : CreateVersionCall :=
  { agent_name := (env "AGENT_NAME").getD ""
  , model := getenv_default env "MODEL_NAME" "gpt-4.1"
  , instructions := pyStrip file_content }

/-- The list of create-agent-version calls the provisioner issues. -/
def provision_calls (env : Env) (file_content : String) :
    List CreateVersionCall :=
  [provision_call env file_content]

/-- Claim C9: the provisioner issues exactly one create-agent-version call
whose instructions are the whitespace-stripped prompt-file content and
whose model is MODEL_NAME, falling back to "gpt-4.1" only when MODEL_NAME
is unset; the chat client never uses that fallback — with no overrides set
it resolves to the agent definition's model. -/
theorem C9_provisioner_call (env : Env) (fc D : String) :
    (provision_calls env fc).length = 1 ∧
    (provision_call env fc).instructions = pyStrip fc ∧
    (∀ v, env "MODEL_NAME" = some v → (provision_call env fc).model = v) ∧
    (env "MODEL_NAME" = none → (provision_call env fc).model = "gpt-4.1") ∧
    (truthy env "MODEL_DEPLOYMENT" = none →
      truthy env "AZURE_OPENAI_DEPLOYMENT" = none →
      truthy env "MODEL_NAME" = none →
      model_name_resolve env D = D) := by
  refine ⟨rfl, rfl, fun v hv => ?_, fun hn => ?_, fun h1 h2 h3 => ?_⟩
  · simp [provision_call, getenv_default, hv]
  · simp [provision_call, getenv_default, hn]
  · simp [model_name_resolve, h1, h2, h3]

/-- Claim C9 witness: with no MODEL_NAME the provisioner's call uses
"gpt-4.1" and strips the prompt text, while the chat client with no
overrides resolves to the definition's own model. -/
theorem C9_provisioner_call_witness :
    (provision_call envNone "  You are a trail guide.\n").model = "gpt-4.1" ∧
    (provision_call envNone "  You are a trail guide.\n").instructions =
      "You are a trail guide." ∧
    model_name_resolve envNone "gpt-4o-mini" = "gpt-4o-mini" := by
  refine ⟨?_, ?_, ?_⟩
  · exact (C9_provisioner_call envNone "  You are a trail guide.\n"
      "gpt-4o-mini").2.2.2.1 rfl
  · have h := (C9_provisioner_call envNone "  You are a trail guide.\n"
      "gpt-4o-mini").2.1
    rw [h]
    decide
  · exact (C9_provisioner_call envNone "  You are a trail guide.\n"
      "gpt-4o-mini").2.2.2.2 rfl rfl rfl

end TrailGuide
